import Mathlib

/-!
Shallow embedding of the OTP-based email-verification / password-reset
subsystem of the backend-training repository.

Modelling conventions:
* the `otps` SQL table becomes a list of `OTPRecord` plus the auto-increment
  counter (`OtpStore`);
* `NOW()` becomes an explicit `now : Nat` argument, and the 10-minute
  validity window an explicit `expiresInMinutes` argument (time is an
  abstract `Nat` clock, only ordering matters);
* `crypto.randomInt(0, 10)` becomes a function `rand : Nat → Nat` giving the
  i-th draw; its contract (the value is below 10) appears as a hypothesis;
* email dispatch (nodemailer) becomes a boolean `dispatchOk`; a failed
  dispatch raises, which the services surface as `Except.error` with the
  wrapping message the JavaScript prepends;
* `bcrypt.compare` becomes an abstract comparison function, `bcrypt.hash` an
  abstract `hash : String → String`;
* thrown JavaScript errors become `Except.error` with the thrown message.
-/

namespace BackendOtp

/-- A row of the `otps` table (init SQL: id, email, otp_code, otp_type,
expires_at, used, created_at). -/
structure OTPRecord where
  id : Nat
  email : String
  code : String
  otpType : String
  expiresAt : Nat
  used : Bool
  createdAt : Nat
  deriving DecidableEq, Repr

/-- The `otps` table together with its auto-increment counter. -/
structure OtpStore where
  recs : List OTPRecord
  nextId : Nat
  deriving DecidableEq, Repr

/-- otpModel.createOTP: `INSERT INTO otps (email, otp_code, otp_type,
expires_at) VALUES (?, ?, ?, ?)`; `used` defaults to FALSE and `created_at`
to the current time. -/
def createOTP (email otpCode otpType : String) (expiresAt now : Nat)
    (st : OtpStore) : OtpStore :=
  { recs := st.recs ++
      [{ id := st.nextId, email := email, code := otpCode, otpType := otpType,
         expiresAt := expiresAt, used := false, createdAt := now }],
    nextId := st.nextId + 1 }

/-- The WHERE clause of otpModel.getValidOTP: matching email, code and type,
`expires_at > NOW()` and `used = FALSE`. -/
def otpMatches (email otpCode otpType : String) (now : Nat)
    (r : OTPRecord) : Bool :=
  r.email == email && r.code == otpCode && r.otpType == otpType &&
    decide (now < r.expiresAt) && !r.used

/-- Fold step realising `ORDER BY created_at DESC LIMIT 1`: keep the row with
the largest `created_at`. -/
def pickLater (acc : Option OTPRecord) (r : OTPRecord) : Option OTPRecord :=
  match acc with
  | none => some r
  | some b => if b.createdAt < r.createdAt then some r else some b

/-- `ORDER BY created_at DESC LIMIT 1` over a result set. -/
def latestCreated (l : List OTPRecord) : Option OTPRecord :=
  l.foldl pickLater none

/-- otpModel.getValidOTP: `SELECT * FROM otps WHERE email = ? AND otp_code = ?
AND otp_type = ? AND expires_at > NOW() AND used = FALSE ORDER BY created_at
DESC LIMIT 1`. -/
def getValidOTP (email otpCode otpType : String) (now : Nat)
    (st : OtpStore) : Option OTPRecord :=
  latestCreated (st.recs.filter (otpMatches email otpCode otpType now))

/-- otpModel.markOTPAsUsed: `UPDATE otps SET used = TRUE WHERE id = ?`. -/
def markOTPAsUsed (id : Nat) (st : OtpStore) : OtpStore :=
  { st with recs := st.recs.map (fun r =>
      if r.id = id then { r with used := true } else r) }

/-- otpModel.deleteOTPsByEmail: `DELETE FROM otps WHERE email = ? AND
otp_type = ?`. -/
def deleteOTPsByEmail (email otpType : String) (st : OtpStore) : OtpStore :=
  { st with recs := st.recs.filter (fun r =>
      !(r.email == email && r.otpType == otpType)) }

/-- The digit alphabet `'0123456789'` of otpService.generateOTP. -/
def otpDigits : List Char :=
  ['0', '1', '2', '3', '4', '5', '6', '7', '8', '9']

/-- otpService.generateOTP(length = 6): concatenates `length` characters
`digits[crypto.randomInt(0, digits.length)]`; `rand i` models the i-th draw
of `crypto.randomInt(0, 10)`. -/
def generateOTP (rand : Nat → Nat) (length : Nat := 6) : String :=
  String.mk ((List.range length).map fun i => otpDigits.getD (rand i) '0')

/- ### Basic facts about the lookup -/

theorem foldl_pickLater_some (l : List OTPRecord) (b : OTPRecord) :
    ∃ r, l.foldl pickLater (some b) = some r ∧ (r = b ∨ r ∈ l) := by
  induction l generalizing b with
  | nil => exact ⟨b, rfl, Or.inl rfl⟩
  | cons x xs ih =>
    simp only [List.foldl_cons]
    unfold pickLater
    by_cases h : b.createdAt < x.createdAt
    · simp only [h, if_pos]
      obtain ⟨r, hr, hmem⟩ := ih x
      exact ⟨r, hr, by rcases hmem with h1 | h1 <;> simp [h1]⟩
    · simp only [h, if_neg, not_false_iff]
      obtain ⟨r, hr, hmem⟩ := ih b
      exact ⟨r, hr, by rcases hmem with h1 | h1 <;> simp [h1]⟩

theorem latestCreated_mem {l : List OTPRecord} {r : OTPRecord}
    (h : latestCreated l = some r) : r ∈ l := by
  cases l with
  | nil => simp [latestCreated] at h
  | cons x xs =>
    unfold latestCreated at h
    simp only [List.foldl_cons] at h
    have hx : pickLater none x = some x := rfl
    rw [hx] at h
    obtain ⟨r', hr', hmem⟩ := foldl_pickLater_some xs x
    rw [hr'] at h
    cases h
    rcases hmem with h1 | h1 <;> simp [h1]

theorem latestCreated_ne_none {l : List OTPRecord} (h : l ≠ []) :
    ∃ r, latestCreated l = some r := by
  cases l with
  | nil => exact absurd rfl h
  | cons x xs =>
    unfold latestCreated
    simp only [List.foldl_cons]
    have hx : pickLater none x = some x := rfl
    rw [hx]
    obtain ⟨r, hr, _⟩ := foldl_pickLater_some xs x
    exact ⟨r, hr⟩

theorem otpMatches_iff (email otpCode otpType : String) (now : Nat)
    (r : OTPRecord) :
    otpMatches email otpCode otpType now r = true ↔
      r.email = email ∧ r.code = otpCode ∧ r.otpType = otpType ∧
        now < r.expiresAt ∧ r.used = false := by
  simp [otpMatches, and_assoc]

theorem getValidOTP_some {email otpCode otpType : String} {now : Nat}
    {st : OtpStore} {r : OTPRecord}
    (h : getValidOTP email otpCode otpType now st = some r) :
    r ∈ st.recs ∧ r.email = email ∧ r.code = otpCode ∧ r.otpType = otpType ∧
      now < r.expiresAt ∧ r.used = false := by
  have hmem := latestCreated_mem h
  rw [List.mem_filter] at hmem
  exact ⟨hmem.1, (otpMatches_iff email otpCode otpType now r).mp hmem.2⟩

theorem getValidOTP_eq_none {email otpCode otpType : String} {now : Nat}
    {st : OtpStore}
    (h : ∀ r ∈ st.recs, otpMatches email otpCode otpType now r = false) :
    getValidOTP email otpCode otpType now st = none := by
  unfold getValidOTP
  have : st.recs.filter (otpMatches email otpCode otpType now) = [] := by
    rw [List.filter_eq_nil_iff]
    intro a ha
    simp [h a ha]
  rw [this]
  rfl

theorem getValidOTP_isSome {email otpCode otpType : String} {now : Nat}
    {st : OtpStore} {r : OTPRecord} (hmem : r ∈ st.recs)
    (hm : otpMatches email otpCode otpType now r = true) :
    ∃ r', getValidOTP email otpCode otpType now st = some r' := by
  unfold getValidOTP
  apply latestCreated_ne_none
  intro hnil
  have : r ∈ st.recs.filter (otpMatches email otpCode otpType now) :=
    List.mem_filter.mpr ⟨hmem, hm⟩
  rw [hnil] at this
  exact absurd this (List.not_mem_nil r)

/- ### OTP service (otpService.js) -/

/-- The success payload of the two sending services. -/
structure SendResult where
  success : Bool
  message : String
  expiresIn : Nat
  deriving DecidableEq, Repr

/-- The success payload of the two verifying services. -/
structure VerifyResult where
  success : Bool
  message : String
  deriving DecidableEq, Repr

/-- Common body of otpService.sendEmailVerificationOTP and
otpService.sendPasswordResetOTP, which differ only in the `otp_type` tag and
the message strings: generate the code, compute `expiresAt = now +
expiresInMinutes`, delete prior OTPs for `(email, otpType)`, insert the new
row, then dispatch the email.  A dispatch failure is rethrown wrapped in
`errMsg` (the JavaScript appends the transport error text); the database
changes are not rolled back. -/
def sendOTPWith (otpType okMsg errMsg : String) (rand : Nat → Nat)
    (email : String) (otpLength expiresInMinutes now : Nat)
    (dispatchOk : Bool) (st : OtpStore) :
    Except String SendResult × OtpStore :=
  let otpCode := generateOTP rand otpLength
  let expiresAt := now + expiresInMinutes
  let st1 := deleteOTPsByEmail email otpType st
  let st2 := createOTP email otpCode otpType expiresAt now st1
  if dispatchOk then
    (Except.ok { success := true, message := okMsg,
                 expiresIn := expiresInMinutes }, st2)
  else
    (Except.error errMsg, st2)

/-- otpService.sendEmailVerificationOTP. -/
def sendEmailVerificationOTP : (Nat → Nat) → String → Nat → Nat → Nat →
    Bool → OtpStore → Except String SendResult × OtpStore :=
  sendOTPWith "email_verification" "OTP sent successfully"
    "Failed to send OTP: Failed to send email"

/-- otpService.sendPasswordResetOTP. -/
def sendPasswordResetOTP : (Nat → Nat) → String → Nat → Nat → Nat →
    Bool → OtpStore → Except String SendResult × OtpStore :=
  sendOTPWith "password_reset" "Password reset OTP sent successfully"
    "Failed to send password reset OTP: Failed to send email"

/-- Common body of otpService.verifyEmailOTP and
otpService.verifyPasswordResetOTP, which differ only in the `otp_type` tag
and the success message: look up a valid row; if none, throw the generic
`Invalid or expired OTP`; otherwise mark it used and return success. -/
def verifyOTPWith (otpType okMsg : String) (email otpCode : String)
    (now : Nat) (st : OtpStore) : Except String VerifyResult × OtpStore :=
  match getValidOTP email otpCode otpType now st with
  | none => (Except.error "Invalid or expired OTP", st)
  | some r =>
    (Except.ok { success := true, message := okMsg }, markOTPAsUsed r.id st)

/-- otpService.verifyEmailOTP. -/
def verifyEmailOTP : String → String → Nat → OtpStore →
    Except String VerifyResult × OtpStore :=
  verifyOTPWith "email_verification" "OTP verified successfully"

/-- otpService.verifyPasswordResetOTP. -/
def verifyPasswordResetOTP : String → String → Nat → OtpStore →
    Except String VerifyResult × OtpStore :=
  verifyOTPWith "password_reset" "Password reset OTP verified successfully"

/- ### Store well-formedness

Every store reachable through the service operations holds at most one row
per `(email, otp_type)` pair, because issuance always deletes all rows for
the pair before inserting one.  The preservation lemmas below establish that
this is an invariant of the service operations starting from the empty
table. -/

/-- At most one row per `(email, otp_type)` pair. -/
def StoreWf (st : OtpStore) : Prop :=
  ∀ r1 ∈ st.recs, ∀ r2 ∈ st.recs,
    r1.email = r2.email → r1.otpType = r2.otpType → r1 = r2

/-- The row `sendOTPWith` inserts. -/
def issuedRecord (otpType : String) (rand : Nat → Nat) (email : String)
    (otpLength expiresInMinutes now : Nat) (st : OtpStore) : OTPRecord :=
  { id := st.nextId, email := email, code := generateOTP rand otpLength,
    otpType := otpType, expiresAt := now + expiresInMinutes, used := false,
    createdAt := now }

theorem sendOTPWith_snd_recs (otpType okMsg errMsg : String)
    (rand : Nat → Nat) (email : String) (otpLength expiresInMinutes now : Nat)
    (dispatchOk : Bool) (st : OtpStore) :
    ((sendOTPWith otpType okMsg errMsg rand email otpLength expiresInMinutes
        now dispatchOk st).2).recs =
      (st.recs.filter (fun r => !(r.email == email && r.otpType == otpType)))
        ++ [issuedRecord otpType rand email otpLength expiresInMinutes now st] := by
  cases dispatchOk <;>
    simp [sendOTPWith, deleteOTPsByEmail, createOTP, issuedRecord]

theorem mem_sendOTPWith_snd {otpType okMsg errMsg : String}
    {rand : Nat → Nat} {email : String}
    {otpLength expiresInMinutes now : Nat} {dispatchOk : Bool}
    {st : OtpStore} {r : OTPRecord} :
    r ∈ ((sendOTPWith otpType okMsg errMsg rand email otpLength
        expiresInMinutes now dispatchOk st).2).recs ↔
      (r ∈ st.recs ∧ ¬(r.email = email ∧ r.otpType = otpType)) ∨
        r = issuedRecord otpType rand email otpLength expiresInMinutes now st := by
  rw [sendOTPWith_snd_recs]
  simp [List.mem_filter, not_and, imp_iff_not_or]

theorem mem_markOTPAsUsed {id : Nat} {st : OtpStore} {r : OTPRecord} :
    r ∈ (markOTPAsUsed id st).recs ↔
      ∃ r0 ∈ st.recs,
        r = if r0.id = id then { r0 with used := true } else r0 := by
  simp only [markOTPAsUsed, List.mem_map]
  constructor
  · rintro ⟨r0, h0, rfl⟩; exact ⟨r0, h0, rfl⟩
  · rintro ⟨r0, h0, rfl⟩; exact ⟨r0, h0, rfl⟩

/-- Issuance preserves the at-most-one-row-per-pair invariant. -/
theorem StoreWf_sendOTPWith {st : OtpStore} (hwf : StoreWf st)
    (otpType okMsg errMsg : String) (rand : Nat → Nat) (email : String)
    (otpLength expiresInMinutes now : Nat) (dispatchOk : Bool) :
    StoreWf (sendOTPWith otpType okMsg errMsg rand email otpLength
      expiresInMinutes now dispatchOk st).2 := by
  intro r1 h1 r2 h2 hemail htype
  rw [mem_sendOTPWith_snd] at h1 h2
  rcases h1 with ⟨h1m, h1k⟩ | h1e <;> rcases h2 with ⟨h2m, h2k⟩ | h2e
  · exact hwf r1 h1m r2 h2m hemail htype
  · exfalso
    apply h1k
    subst h2e
    exact ⟨hemail, htype⟩
  · exfalso
    apply h2k
    subst h1e
    exact ⟨hemail.symm, htype.symm⟩
  · rw [h1e, h2e]

/-- Marking a row used preserves the at-most-one-row-per-pair invariant. -/
theorem StoreWf_markOTPAsUsed {st : OtpStore} (hwf : StoreWf st) (id : Nat) :
    StoreWf (markOTPAsUsed id st) := by
  intro r1 h1 r2 h2 hemail htype
  rw [mem_markOTPAsUsed] at h1 h2
  obtain ⟨a, ha, rfl⟩ := h1
  obtain ⟨b, hb, rfl⟩ := h2
  have hab : a = b := by
    apply hwf a ha b hb
    · revert hemail
      split <;> split <;> simp_all
    · revert htype
      split <;> split <;> simp_all
  subst hab
  rfl

/-- Verification preserves the at-most-one-row-per-pair invariant. -/
theorem StoreWf_verifyOTPWith {st : OtpStore} (hwf : StoreWf st)
    (otpType okMsg email otpCode : String) (now : Nat) :
    StoreWf (verifyOTPWith otpType okMsg email otpCode now st).2 := by
  unfold verifyOTPWith
  cases h : getValidOTP email otpCode otpType now st with
  | none => exact hwf
  | some r => exact StoreWf_markOTPAsUsed hwf r.id

/- ### Users table and user/auth models -/

/-- A row of the `users` table (init SQL: id, username, email, password,
role, email_verified, created_at). -/
structure User where
  id : Nat
  username : String
  email : String
  password : String
  role : String
  email_verified : Bool
  deriving DecidableEq, Repr

/-- authModel.getUserByEmail and userModel.getUserByEmail: `SELECT * FROM
users WHERE email = ?`, taking the first result row. -/
def getUserByEmail (email : String) (users : List User) : Option User :=
  users.find? (fun u => u.email == email)

/-- authModel.updatePassword: `UPDATE users SET password = ? WHERE email =
?`, returning `result.affectedRows > 0`.  `updateOk` models the storage
layer executing the statement; when false the statement affects no rows
(infrastructure-level mutation failure), so the rows are unchanged and the
model returns false. -/
def updatePassword (updateOk : Bool) (email hashedPassword : String)
    (users : List User) : List User × Bool :=
  if updateOk then
    (users.map (fun u =>
        if u.email == email then { u with password := hashedPassword } else u),
      users.any (fun u => u.email == email))
  else
    (users, false)

/- ### Auth service (part_002: loginUser, forgotPassword, resetPassword) -/

/-- A character admissible in `[^\s@]`: neither whitespace nor `@`. -/
def okChar (c : Char) : Bool := !c.isWhitespace && c != '@'

/-- The auth-service regex `^[^\s@]+@[^\s@]+\.[^\s@]+$`: a nonempty run of
admissible characters, one `@`, then a nonempty tail of admissible
characters containing a dot that is neither its first nor last character. -/
def emailRegexTest (s : String) : Bool :=
  let cs := s.data
  let localPart := cs.takeWhile (fun c => c != '@')
  match cs.dropWhile (fun c => c != '@') with
  | [] => false
  | _ :: tail =>
    !localPart.isEmpty && localPart.all okChar &&
      !tail.isEmpty && tail.all okChar &&
      ((tail.drop 1).dropLast.contains '.')

/-- The normalisation `email.trim().toLowerCase()` the auth service applies
before hitting the database: drop leading and trailing whitespace, then
lower-case every character. -/
def normalizeEmail (email : String) : String :=
  String.mk
    ((((email.data.dropWhile Char.isWhitespace).reverse.dropWhile
        Char.isWhitespace).reverse).map Char.toLower)

deriving instance DecidableEq for Except

/-- The payload of `jwt.sign({ id: userId, type: 'user' }, ...)`, kept
abstract: only the signed-over claims are modelled. -/
structure Jwt where
  userId : Nat
  type : String
  deriving DecidableEq, Repr

/-- authService.generateToken. -/
def generateToken (userId : Nat) : Jwt := { userId := userId, type := "user" }

/-- The two shapes loginUser can return on success: the unverified-account
answer (no token) or the login answer carrying a token.  The password field
is stripped from the returned user, as in the JavaScript destructuring. -/
inductive LoginResult where
  | needsVerification (email message : String)
  | loggedIn (token : Jwt) (user : User) (message : String)
  deriving DecidableEq, Repr

/-- authService.loginUser; `cmp` models `bcrypt.compare`. -/
def loginUser (cmp : String → String → Bool) (email password : String)
    (users : List User) : Except String LoginResult :=
  if email = "" ∨ password = "" then
    Except.error "Email and password are required"
  else
    match getUserByEmail (normalizeEmail email) users with
    | none => Except.error "Invalid credentials"
    | some user =>
      if !cmp password user.password then
        Except.error "Invalid credentials"
      else if !user.email_verified then
        Except.ok (LoginResult.needsVerification user.email
          "Please verify your email before logging in. Check your email for verification code.")
      else
        Except.ok (LoginResult.loggedIn (generateToken user.id)
          { user with password := "" } "Login successful")

/-- The `{success, message}` payload of forgotPassword / resetPassword. -/
structure FlowResult where
  success : Bool
  message : String
  deriving DecidableEq, Repr

/-- authService.forgotPassword: validate the email, look up the account; if
absent, answer success anyway (without touching the OTP store); if present,
delegate to sendPasswordResetOTP on the normalised email. -/
def forgotPassword (rand : Nat → Nat) (email : String)
    (otpLength expiresInMinutes now : Nat) (dispatchOk : Bool)
    (users : List User) (st : OtpStore) :
    Except String FlowResult × OtpStore :=
  if email = "" then
    (Except.error "Email is required", st)
  else if !emailRegexTest email then
    (Except.error "Invalid email format", st)
  else
    match getUserByEmail (normalizeEmail email) users with
    | none =>
      (Except.ok
        { success := true,
          message := "If an account with this email exists, a password reset code has been sent." },
       st)
    | some _ =>
      match sendPasswordResetOTP rand (normalizeEmail email) otpLength
          expiresInMinutes now dispatchOk st with
      | (Except.ok _, st1) =>
        (Except.ok
          { success := true,
            message := "Password reset code sent to your email. Please check your inbox." },
         st1)
      | (Except.error e, st1) => (Except.error e, st1)

/-- The externally visible effects resetPassword can perform, in the order
it performs them; used to state that validation failures happen before any
store access. -/
inductive ResetEvent where
  | userLookup
  | otpVerify
  | passwordUpdate
  deriving DecidableEq, Repr

/-- Result, resulting stores and effect trace of one resetPassword run. -/
structure ResetOutcome where
  result : Except String FlowResult
  users : List User
  otps : OtpStore
  trace : List ResetEvent
  deriving DecidableEq, Repr

/-- authService.resetPassword: presence checks, email-format check and the
minimum-length password policy run first; then the account lookup, then
verifyPasswordResetOTP (which consumes the code), then the bcrypt hash and
the password UPDATE.  A falsy `updated` is rethrown as
`Failed to update password`; the consumed code is not restored.  `hash`
models `bcrypt.hash`, `updateOk` the UPDATE reaching its row. -/
def resetPassword (email otp newPassword : String) (hash : String → String)
    (now : Nat) (updateOk : Bool) (users : List User) (st : OtpStore) :
    ResetOutcome :=
  if email = "" ∨ otp = "" ∨ newPassword = "" then
    { result := Except.error "Email, OTP, and new password are required",
      users := users, otps := st, trace := [] }
  else if !emailRegexTest email then
    { result := Except.error "Invalid email format",
      users := users, otps := st, trace := [] }
  else if newPassword.length < 6 then
    { result := Except.error "Password must be at least 6 characters long",
      users := users, otps := st, trace := [] }
  else
    match getUserByEmail (normalizeEmail email) users with
    | none =>
      { result := Except.error "User not found",
        users := users, otps := st, trace := [ResetEvent.userLookup] }
    | some _ =>
      match verifyPasswordResetOTP (normalizeEmail email) otp now st with
      | (Except.error e, st1) =>
        { result := Except.error e, users := users, otps := st1,
          trace := [ResetEvent.userLookup, ResetEvent.otpVerify] }
      | (Except.ok _, st1) =>
        match updatePassword updateOk (normalizeEmail email)
            (hash newPassword) users with
        | (users1, true) =>
          { result := Except.ok
              { success := true,
                message := "Password reset successfully. You can now login with your new password." },
            users := users1, otps := st1,
            trace := [ResetEvent.userLookup, ResetEvent.otpVerify,
                      ResetEvent.passwordUpdate] }
        | (users1, false) =>
          { result := Except.error "Failed to update password",
            users := users1, otps := st1,
            trace := [ResetEvent.userLookup, ResetEvent.otpVerify,
                      ResetEvent.passwordUpdate] }

/- ### OTP controller (otpController.sendVerificationOTP) -/

/-- The JSON-plus-status answer an endpoint sends; `data` carries the
`{email, expiresIn}` payload of the 200 answer when present. -/
structure ApiResponse where
  status : Nat
  success : Bool
  error : Option String
  message : Option String
  data : Option (String × Nat)
  deriving DecidableEq, Repr

/-- otpController.sendVerificationOTP: requires an email, answers 404 when
no account exists and 400 when the account is already verified — in both
cases before any OTP is generated, stored or dispatched — and otherwise
delegates to sendEmailVerificationOTP (on the raw, un-normalised email). -/
def sendVerificationOTP (rand : Nat → Nat) (email : String)
    (otpLength expiresInMinutes now : Nat) (dispatchOk : Bool)
    (users : List User) (st : OtpStore) : ApiResponse × OtpStore :=
  if email = "" then
    ({ status := 400, success := false, error := some "Email is required",
       message := none, data := none }, st)
  else
    match getUserByEmail email users with
    | none =>
      ({ status := 404, success := false, error := some "User not found",
         message := none, data := none }, st)
    | some user =>
      if user.email_verified then
        ({ status := 400, success := false,
           error := some "Email is already verified",
           message := none, data := none }, st)
      else
        match sendEmailVerificationOTP rand email otpLength expiresInMinutes
            now dispatchOk st with
        | (Except.ok res, st1) =>
          ({ status := 200, success := true, error := none,
             message := some "Verification OTP sent to email",
             data := some (email, res.expiresIn) }, st1)
        | (Except.error _, st1) =>
          ({ status := 500, success := false,
             error := some "Failed to send verification OTP",
             message := none, data := none }, st1)

/- ### Shared lemmas and fixtures for the claim theorems -/

theorem verifyOTPWith_of_none {otpType okMsg email otpCode : String}
    {now : Nat} {st : OtpStore}
    (h : getValidOTP email otpCode otpType now st = none) :
    verifyOTPWith otpType okMsg email otpCode now st
      = (Except.error "Invalid or expired OTP", st) := by
  unfold verifyOTPWith
  rw [h]

theorem verifyOTPWith_of_some {otpType okMsg email otpCode : String}
    {now : Nat} {st : OtpStore} {r : OTPRecord}
    (h : getValidOTP email otpCode otpType now st = some r) :
    verifyOTPWith otpType okMsg email otpCode now st
      = (Except.ok { success := true, message := okMsg },
         markOTPAsUsed r.id st) := by
  unfold verifyOTPWith
  rw [h]

theorem filter_not_filter_self {α : Type} (p : α → Bool) (l : List α) :
    (l.filter (fun a => !(p a))).filter p = [] := by
  rw [List.filter_eq_nil_iff]
  intro a ha
  rw [List.mem_filter] at ha
  simp only [Bool.not_eq_true'] at ha
  simp [ha.2]

/-- An empty `otps` table. -/
def emptyStore : OtpStore := { recs := [], nextId := 1 }

/-- A one-user table holding a verified account for alice. -/
def usersOne : List User :=
  [{ id := 1, username := "alice", email := "alice@example.com",
     password := "stored-bcrypt-hash", role := "user",
     email_verified := true }]

/-- A one-user table holding an unverified account for dave. -/
def usersDave : List User :=
  [{ id := 2, username := "dave", email := "dave@example.com",
     password := "stored-bcrypt-hash", role := "user",
     email_verified := false }]

/-- A store holding one already-used password-reset code for alice. -/
def storeUsed : OtpStore :=
  { recs := [{ id := 1, email := "alice@example.com", code := "123456",
               otpType := "password_reset", expiresAt := 100, used := true,
               createdAt := 0 }],
    nextId := 2 }

/-- A store holding one outstanding password-reset code for alice. -/
def storeFresh : OtpStore :=
  { recs := [{ id := 1, email := "alice@example.com", code := "123456",
               otpType := "password_reset", expiresAt := 100, used := false,
               createdAt := 0 }],
    nextId := 2 }

/- ### C8: the code generator -/

/-- C8: for every requested length n, generateOTP(n) returns a string of
exactly n characters, each a decimal digit, provided every draw of
`crypto.randomInt(0, 10)` is below 10 (its contract).  The function is pure:
it takes no store and returns only the string. -/
theorem generateOTP_length_digits (rand : Nat → Nat) (n : Nat)
    (h : ∀ i, rand i < 10) :
    (generateOTP rand n).length = n ∧
      ∀ c ∈ (generateOTP rand n).data, c.isDigit = true := by
  constructor
  · simp [generateOTP, String.length]
  · intro c hc
    simp only [generateOTP, String.mk, List.mem_map, List.mem_range] at hc
    obtain ⟨i, _, rfl⟩ := hc
    have hdig : ∀ k < 10, (otpDigits.getD k '0').isDigit = true := by decide
    exact hdig (rand i) (h i)

/-- Witness for C8: with draws i % 10 the generated string has the default
length 6 (and the theorem also yields its digit property). -/
theorem generateOTP_length_digits_witness :
    (generateOTP (fun i => i % 10) 6).length = 6 :=
  (generateOTP_length_digits (fun i => i % 10) 6
    (fun i => Nat.mod_lt i (by decide))).1

/- ### C7: dispatch failure after persistence -/

/-- C7: when notification dispatch fails, both sending services surface a
delivery error to the caller while the freshly inserted code row stays in
the store (the delete-then-insert that already ran is not rolled back). -/
theorem sendOTP_dispatch_failure_keeps_record :
    ∀ (rand : Nat → Nat) (email : String) (len exp now : Nat)
      (st : OtpStore),
      ((sendPasswordResetOTP rand email len exp now false st).1
          = Except.error "Failed to send password reset OTP: Failed to send email"
        ∧ ∃ r ∈ (sendPasswordResetOTP rand email len exp now false st).2.recs,
            r.email = email ∧ r.code = generateOTP rand len ∧
            r.otpType = "password_reset" ∧ r.used = false ∧
            r.expiresAt = now + exp)
      ∧ ((sendEmailVerificationOTP rand email len exp now false st).1
          = Except.error "Failed to send OTP: Failed to send email"
        ∧ ∃ r ∈ (sendEmailVerificationOTP rand email len exp now false st).2.recs,
            r.email = email ∧ r.code = generateOTP rand len ∧
            r.otpType = "email_verification" ∧ r.used = false ∧
            r.expiresAt = now + exp) := by
  intro rand email len exp now st
  refine ⟨⟨rfl, ?_⟩, ⟨rfl, ?_⟩⟩
  · refine ⟨issuedRecord "password_reset" rand email len exp now st,
      ?_, rfl, rfl, rfl, rfl, rfl⟩
    rw [show sendPasswordResetOTP = sendOTPWith "password_reset"
          "Password reset OTP sent successfully"
          "Failed to send password reset OTP: Failed to send email" from rfl,
        sendOTPWith_snd_recs]
    exact List.mem_append_right _ (List.mem_singleton.mpr rfl)
  · refine ⟨issuedRecord "email_verification" rand email len exp now st,
      ?_, rfl, rfl, rfl, rfl, rfl⟩
    rw [show sendEmailVerificationOTP = sendOTPWith "email_verification"
          "OTP sent successfully"
          "Failed to send OTP: Failed to send email" from rfl,
        sendOTPWith_snd_recs]
    exact List.mem_append_right _ (List.mem_singleton.mpr rfl)

/- ### C2: issuance invalidates prior codes -/

/-- C2: after issuing a password-reset code twice in succession for the
same email, the store holds exactly one row for `(email, password_reset)`
(issuance deletes all prior rows before inserting); verifying with the
first code fails with the generic error and verifying with the second
succeeds while it is unexpired. -/
theorem issue_twice_invalidates_first
    (rand1 rand2 : Nat → Nat) (email : String)
    (len1 len2 exp1 exp2 now1 now2 now3 : Nat) (d1 d2 : Bool) (st : OtpStore)
    (hcode : generateOTP rand1 len1 ≠ generateOTP rand2 len2)
    (hfresh : now3 < now2 + exp2) :
    ((sendPasswordResetOTP rand2 email len2 exp2 now2 d2
        (sendPasswordResetOTP rand1 email len1 exp1 now1 d1 st).2).2.recs.filter
          (fun r => r.email == email && r.otpType == "password_reset")).length = 1
    ∧ (verifyPasswordResetOTP email (generateOTP rand1 len1) now3
        (sendPasswordResetOTP rand2 email len2 exp2 now2 d2
          (sendPasswordResetOTP rand1 email len1 exp1 now1 d1 st).2).2).1
        = Except.error "Invalid or expired OTP"
    ∧ (verifyPasswordResetOTP email (generateOTP rand2 len2) now3
        (sendPasswordResetOTP rand2 email len2 exp2 now2 d2
          (sendPasswordResetOTP rand1 email len1 exp1 now1 d1 st).2).2).1
        = Except.ok
            { success := true,
              message := "Password reset OTP verified successfully" } := by
  have hsp : sendPasswordResetOTP = sendOTPWith "password_reset"
      "Password reset OTP sent successfully"
      "Failed to send password reset OTP: Failed to send email" := rfl
  have hvp : verifyPasswordResetOTP = verifyOTPWith "password_reset"
      "Password reset OTP verified successfully" := rfl
  set st1 := (sendPasswordResetOTP rand1 email len1 exp1 now1 d1 st).2 with hst1
  set st2 := (sendPasswordResetOTP rand2 email len2 exp2 now2 d2 st1).2 with hst2
  have hmem2 : ∀ r : OTPRecord, r ∈ st2.recs ↔
      (r ∈ st1.recs ∧ ¬(r.email = email ∧ r.otpType = "password_reset")) ∨
        r = issuedRecord "password_reset" rand2 email len2 exp2 now2 st1 := by
    intro r
    rw [hst2, hsp]
    exact mem_sendOTPWith_snd
  refine ⟨?_, ?_, ?_⟩
  · rw [hst2, hst1, hsp, sendOTPWith_snd_recs]
    rw [List.filter_append, filter_not_filter_self]
    simp [issuedRecord]
  · rw [hvp]
    rw [verifyOTPWith_of_none ?_]
    apply getValidOTP_eq_none
    intro r hr
    rw [hmem2 r] at hr
    rw [Bool.eq_false_iff]
    intro htrue
    rw [otpMatches_iff] at htrue
    rcases hr with ⟨_, hnk⟩ | rfl
    · exact hnk ⟨htrue.1, htrue.2.2.1⟩
    · exact hcode (htrue.2.1 ▸ rfl)
  · have hnew : issuedRecord "password_reset" rand2 email len2 exp2 now2 st1
        ∈ st2.recs := (hmem2 _).mpr (Or.inr rfl)
    have hm : otpMatches email (generateOTP rand2 len2) "password_reset" now3
        (issuedRecord "password_reset" rand2 email len2 exp2 now2 st1) = true := by
      rw [otpMatches_iff]
      exact ⟨rfl, rfl, rfl, hfresh, rfl⟩
    obtain ⟨r', hr'⟩ := getValidOTP_isSome hnew hm
    rw [hvp, verifyOTPWith_of_some hr']

/-- Witness for C2: issuing "111111" then "222222" for alice leaves one
outstanding row; the first code no longer verifies, the second does. -/
theorem issue_twice_invalidates_first_witness :
    ((sendPasswordResetOTP (fun _ => 2) "alice@example.com" 6 10 1 true
        (sendPasswordResetOTP (fun _ => 1) "alice@example.com" 6 10 0 true
          emptyStore).2).2.recs.filter
          (fun r => r.email == "alice@example.com" &&
            r.otpType == "password_reset")).length = 1
    ∧ (verifyPasswordResetOTP "alice@example.com"
        (generateOTP (fun _ => 1) 6) 5
        (sendPasswordResetOTP (fun _ => 2) "alice@example.com" 6 10 1 true
          (sendPasswordResetOTP (fun _ => 1) "alice@example.com" 6 10 0 true
            emptyStore).2).2).1
        = Except.error "Invalid or expired OTP"
    ∧ (verifyPasswordResetOTP "alice@example.com"
        (generateOTP (fun _ => 2) 6) 5
        (sendPasswordResetOTP (fun _ => 2) "alice@example.com" 6 10 1 true
          (sendPasswordResetOTP (fun _ => 1) "alice@example.com" 6 10 0 true
            emptyStore).2).2).1
        = Except.ok
            { success := true,
              message := "Password reset OTP verified successfully" } :=
  issue_twice_invalidates_first (fun _ => 1) (fun _ => 2) "alice@example.com"
    6 6 10 10 0 1 5 true true emptyStore (by decide) (by decide)

/- ### C3: used and expired codes never verify -/

/-- C3: the lookup never returns a used or expired row (the filter compares
`expires_at` to the clock at query time and demands `used = FALSE`); after a
successful verification of a well-formed store the same code fails at any
later (or earlier) clock, because the row was marked used (replay
rejected); and whenever every matching row is used or expired — in
particular a correct but expired code — verify answers the single generic
invalid-or-expired error and leaves the store unchanged.  Well-formedness
(at most one row per (email, purpose), `StoreWf`) is preserved by all
service operations by `StoreWf_sendOTPWith` and `StoreWf_verifyOTPWith` and
holds for the empty table. -/
theorem verify_rejects_used_and_expired :
    (∀ (email otpCode otpType : String) (now : Nat) (st : OtpStore)
        (r : OTPRecord),
        getValidOTP email otpCode otpType now st = some r →
        r.used = false ∧ now < r.expiresAt)
    ∧ (∀ (otpType okMsg email otpCode : String) (now now' : Nat)
        (st : OtpStore) (r : OTPRecord),
        StoreWf st →
        getValidOTP email otpCode otpType now st = some r →
        (verifyOTPWith otpType okMsg email otpCode now'
            (verifyOTPWith otpType okMsg email otpCode now st).2).1
          = Except.error "Invalid or expired OTP")
    ∧ (∀ (otpType okMsg email otpCode : String) (now : Nat) (st : OtpStore),
        (∀ r ∈ st.recs, r.email = email → r.code = otpCode →
          r.otpType = otpType → r.used = true ∨ r.expiresAt ≤ now) →
        verifyOTPWith otpType okMsg email otpCode now st
          = (Except.error "Invalid or expired OTP", st)) := by
  refine ⟨?_, ?_, ?_⟩
  · intro email otpCode otpType now st r h
    have := getValidOTP_some h
    exact ⟨this.2.2.2.2.2, this.2.2.2.2.1⟩
  · intro otpType okMsg email otpCode now now' st r hwf h
    obtain ⟨hmem, hemail, hcode, htype, _, _⟩ := getValidOTP_some h
    rw [verifyOTPWith_of_some h]
    rw [verifyOTPWith_of_none ?_]
    apply getValidOTP_eq_none
    intro r' hr'
    rw [mem_markOTPAsUsed] at hr'
    obtain ⟨r0, h0, rfl⟩ := hr'
    by_cases hid : r0.id = r.id
    · simp [hid, otpMatches]
    · rw [if_neg hid, Bool.eq_false_iff]
      intro htrue
      rw [otpMatches_iff] at htrue
      exact hid (congrArg OTPRecord.id
        (hwf r0 h0 r hmem (htrue.1.trans hemail.symm)
          (htrue.2.2.1.trans htype.symm)))
  · intro otpType okMsg email otpCode now st h
    apply verifyOTPWith_of_none
    apply getValidOTP_eq_none
    intro r hr
    rw [Bool.eq_false_iff]
    intro htrue
    rw [otpMatches_iff] at htrue
    rcases h r hr htrue.1 htrue.2.1 htrue.2.2.1 with hused | hexp
    · rw [htrue.2.2.2.2] at hused
      exact Bool.false_ne_true hused
    · exact absurd htrue.2.2.2.1 (Nat.not_lt.mpr hexp)

/-- Witness for C3: for a store whose only row for the presented code is
already used, verify answers the generic error and changes nothing. -/
theorem verify_rejects_used_and_expired_witness :
    verifyOTPWith "password_reset" "Password reset OTP verified successfully"
      "alice@example.com" "123456" 5 storeUsed
      = (Except.error "Invalid or expired OTP", storeUsed) :=
  verify_rejects_used_and_expired.2.2 "password_reset"
    "Password reset OTP verified successfully" "alice@example.com" "123456"
    5 storeUsed (by decide)

/- ### C4: purpose isolation -/

/-- C4: a row can only be consumed under the purpose it was stored with
(the lookup filters on `otp_type`); concretely, for a subject with no other
rows, a code issued for password reset never verifies under the
email-verification purpose and vice versa. -/
theorem purpose_isolation :
    (∀ (email otpCode otpType : String) (now : Nat) (st : OtpStore)
        (r : OTPRecord),
        getValidOTP email otpCode otpType now st = some r →
        r.otpType = otpType)
    ∧ (∀ (rand : Nat → Nat) (email : String) (len exp now now2 : Nat)
        (d : Bool) (st : OtpStore),
        (∀ r ∈ st.recs, r.email ≠ email) →
        (verifyEmailOTP email (generateOTP rand len) now2
            (sendPasswordResetOTP rand email len exp now d st).2).1
          = Except.error "Invalid or expired OTP"
        ∧ (verifyPasswordResetOTP email (generateOTP rand len) now2
            (sendEmailVerificationOTP rand email len exp now d st).2).1
          = Except.error "Invalid or expired OTP") := by
  constructor
  · intro email otpCode otpType now st r h
    exact (getValidOTP_some h).2.2.2.1
  · intro rand email len exp now now2 d st hfresh
    constructor
    · rw [show verifyEmailOTP = verifyOTPWith "email_verification"
            "OTP verified successfully" from rfl]
      rw [verifyOTPWith_of_none ?_]
      apply getValidOTP_eq_none
      intro r hr
      rw [show sendPasswordResetOTP = sendOTPWith "password_reset"
            "Password reset OTP sent successfully"
            "Failed to send password reset OTP: Failed to send email"
          from rfl] at hr
      rw [mem_sendOTPWith_snd] at hr
      rw [Bool.eq_false_iff]
      intro htrue
      rw [otpMatches_iff] at htrue
      rcases hr with ⟨hmem, _⟩ | rfl
      · exact hfresh r hmem htrue.1
      · exact absurd htrue.2.2.1 (by simp [issuedRecord])
    · rw [show verifyPasswordResetOTP = verifyOTPWith "password_reset"
            "Password reset OTP verified successfully" from rfl]
      rw [verifyOTPWith_of_none ?_]
      apply getValidOTP_eq_none
      intro r hr
      rw [show sendEmailVerificationOTP = sendOTPWith "email_verification"
            "OTP sent successfully"
            "Failed to send OTP: Failed to send email" from rfl] at hr
      rw [mem_sendOTPWith_snd] at hr
      rw [Bool.eq_false_iff]
      intro htrue
      rw [otpMatches_iff] at htrue
      rcases hr with ⟨hmem, _⟩ | rfl
      · exact hfresh r hmem htrue.1
      · exact absurd htrue.2.2.1 (by simp [issuedRecord])

/-- Witness for C4: starting from the empty table, issuing "111111" for
alice under one purpose never verifies under the other. -/
theorem purpose_isolation_witness :
    (verifyEmailOTP "alice@example.com" (generateOTP (fun _ => 1) 6) 5
        (sendPasswordResetOTP (fun _ => 1) "alice@example.com" 6 10 0 true
          emptyStore).2).1
      = Except.error "Invalid or expired OTP"
    ∧ (verifyPasswordResetOTP "alice@example.com" (generateOTP (fun _ => 1) 6)
        5 (sendEmailVerificationOTP (fun _ => 1) "alice@example.com" 6 10 0
          true emptyStore).2).1
      = Except.error "Invalid or expired OTP" :=
  purpose_isolation.2 (fun _ => 1) "alice@example.com" 6 10 0 5 true
    emptyStore (by decide)

/- ### C1: enumeration resistance of forgotPassword -/

/-- C1 counterexample: both calls answer success (`success := true`) and the
non-existent case leaves the store untouched, but the two success responses
are NOT the same: the message texts differ, so the response body
distinguishes an existing account from a missing one. -/
theorem forgotPassword_response_differs :
    (forgotPassword (fun _ => 1) "bob@example.com" 6 10 0 true usersOne
        emptyStore).1
      = Except.ok
          { success := true,
            message := "If an account with this email exists, a password reset code has been sent." }
    ∧ (forgotPassword (fun _ => 1) "alice@example.com" 6 10 0 true usersOne
        emptyStore).1
      = Except.ok
          { success := true,
            message := "Password reset code sent to your email. Please check your inbox." }
    ∧ (forgotPassword (fun _ => 1) "bob@example.com" 6 10 0 true usersOne
        emptyStore).1
      ≠ (forgotPassword (fun _ => 1) "alice@example.com" 6 10 0 true usersOne
        emptyStore).1
    ∧ (forgotPassword (fun _ => 1) "bob@example.com" 6 10 0 true usersOne
        emptyStore).2 = emptyStore :=
  ⟨by decide, by decide, by decide, by decide⟩

/-- C1 amended: for a well-formed email whose account does not exist,
forgotPassword returns a success response of the same shape
(`success := true` plus a message) as the existing-account case — though
with a different message text — and performs no further action: the OTP
store is returned unchanged, so no code is issued or stored. -/
theorem forgotPassword_success_shape :
    (∀ (rand : Nat → Nat) (email : String) (len exp now : Nat) (d : Bool)
        (users : List User) (st : OtpStore),
        email ≠ "" → emailRegexTest email = true →
        getUserByEmail (normalizeEmail email) users = none →
        forgotPassword rand email len exp now d users st
          = (Except.ok
              { success := true,
                message := "If an account with this email exists, a password reset code has been sent." },
             st))
    ∧ (∀ (rand : Nat → Nat) (email : String) (len exp now : Nat)
        (users : List User) (st : OtpStore) (u : User),
        email ≠ "" → emailRegexTest email = true →
        getUserByEmail (normalizeEmail email) users = some u →
        (forgotPassword rand email len exp now true users st).1
          = Except.ok
              { success := true,
                message := "Password reset code sent to your email. Please check your inbox." }) := by
  constructor
  · intro rand email len exp now d users st he hre habsent
    simp [forgotPassword, he, hre, habsent]
  · intro rand email len exp now users st u he hre huser
    simp [forgotPassword, he, hre, huser, sendPasswordResetOTP, sendOTPWith]

/-- Witness for C1 (amended): the concrete non-existent call for bob. -/
theorem forgotPassword_success_shape_witness :
    forgotPassword (fun _ => 1) "bob@example.com" 6 10 0 true usersOne
        emptyStore
      = (Except.ok
          { success := true,
            message := "If an account with this email exists, a password reset code has been sent." },
         emptyStore) :=
  forgotPassword_success_shape.1 (fun _ => 1) "bob@example.com" 6 10 0 true
    usersOne emptyStore (by decide) (by decide) (by decide)

/- ### C5: password policy checked before any side effect -/

/-- C5: a reset attempt whose new password is shorter than 6 characters is
rejected with the validation error before anything else happens: the user
table and OTP store are returned unchanged and the effect trace is empty —
no account lookup, no verify call, no update. -/
theorem resetPassword_short_password_rejected
    (email otp newPassword : String) (hash : String → String) (now : Nat)
    (updateOk : Bool) (users : List User) (st : OtpStore)
    (he : email ≠ "") (ho : otp ≠ "") (hp : newPassword ≠ "")
    (hre : emailRegexTest email = true)
    (hlen : newPassword.length < 6) :
    resetPassword email otp newPassword hash now updateOk users st
      = { result := Except.error "Password must be at least 6 characters long",
          users := users, otps := st, trace := [] } := by
  simp [resetPassword, he, ho, hp, hre, hlen]

/-- Witness for C5: the spec scenario, a 5-character password. -/
theorem resetPassword_short_password_rejected_witness :
    resetPassword "alice@example.com" "123456" "abcde" (fun s => s) 5 true
        usersOne storeFresh
      = { result := Except.error "Password must be at least 6 characters long",
          users := usersOne, otps := storeFresh, trace := [] } :=
  resetPassword_short_password_rejected "alice@example.com" "123456" "abcde"
    (fun s => s) 5 true usersOne storeFresh (by decide) (by decide)
    (by decide) (by decide) (by decide)

/- ### C6: the code is consumed before the password mutation -/

/-- C6: on a reset whose inputs validate, whose account exists and whose
code is valid, verification consumes the code (the row is marked used)
before the password UPDATE runs; when the UPDATE then fails
(`updateOk = false`), the run fails with `Failed to update password`, the
trace shows the verify step strictly before the update step, and the store
still holds the consumed (used) row — the code is not restored. -/
theorem resetPassword_consumes_before_update
    (email otp newPassword : String) (hash : String → String) (now : Nat)
    (users : List User) (st : OtpStore) (u : User) (r : OTPRecord)
    (he : email ≠ "") (ho : otp ≠ "") (hp : newPassword ≠ "")
    (hre : emailRegexTest email = true)
    (hlen : ¬newPassword.length < 6)
    (huser : getUserByEmail (normalizeEmail email) users = some u)
    (hotp : getValidOTP (normalizeEmail email) otp "password_reset" now st
      = some r) :
    (resetPassword email otp newPassword hash now false users st).result
        = Except.error "Failed to update password"
    ∧ (resetPassword email otp newPassword hash now false users st).otps
        = markOTPAsUsed r.id st
    ∧ (∀ rec ∈ (resetPassword email otp newPassword hash now false
          users st).otps.recs, rec.id = r.id → rec.used = true)
    ∧ (resetPassword email otp newPassword hash now false users st).trace
        = [ResetEvent.userLookup, ResetEvent.otpVerify,
           ResetEvent.passwordUpdate]
    ∧ (resetPassword email otp newPassword hash now false users st).users
        = users := by
  have hrun : resetPassword email otp newPassword hash now false users st
      = { result := Except.error "Failed to update password",
          users := users, otps := markOTPAsUsed r.id st,
          trace := [ResetEvent.userLookup, ResetEvent.otpVerify,
                    ResetEvent.passwordUpdate] } := by
    rw [resetPassword]
    rw [if_neg (by simp [he, ho, hp])]
    rw [if_neg (by simp [hre])]
    rw [if_neg hlen]
    rw [huser]
    rw [show verifyPasswordResetOTP = verifyOTPWith "password_reset"
          "Password reset OTP verified successfully" from rfl,
        verifyOTPWith_of_some hotp]
    rfl
  rw [hrun]
  refine ⟨rfl, rfl, ?_, rfl, rfl⟩
  intro rec hrec hid
  rw [mem_markOTPAsUsed] at hrec
  obtain ⟨r0, _, rfl⟩ := hrec
  by_cases h0 : r0.id = r.id
  · simp [h0]
  · rw [if_neg h0] at hid ⊢
    exact absurd hid h0

/-- Witness for C6: alice resets with the valid outstanding code "123456"
but the UPDATE fails; the run errors while the code row stays used. -/
theorem resetPassword_consumes_before_update_witness :
    (resetPassword "alice@example.com" "123456" "abcdef" (fun s => s) 5
        false usersOne storeFresh).result
      = Except.error "Failed to update password"
    ∧ (resetPassword "alice@example.com" "123456" "abcdef" (fun s => s) 5
        false usersOne storeFresh).otps
      = markOTPAsUsed 1 storeFresh :=
  ⟨(resetPassword_consumes_before_update "alice@example.com" "123456"
      "abcdef" (fun s => s) 5 usersOne storeFresh
      { id := 1, username := "alice", email := "alice@example.com",
        password := "stored-bcrypt-hash", role := "user",
        email_verified := true }
      { id := 1, email := "alice@example.com", code := "123456",
        otpType := "password_reset", expiresAt := 100, used := false,
        createdAt := 0 }
      (by decide) (by decide) (by decide) (by decide) (by decide)
      (by decide) (by decide)).1,
   (resetPassword_consumes_before_update "alice@example.com" "123456"
      "abcdef" (fun s => s) 5 usersOne storeFresh
      { id := 1, username := "alice", email := "alice@example.com",
        password := "stored-bcrypt-hash", role := "user",
        email_verified := true }
      { id := 1, email := "alice@example.com", code := "123456",
        otpType := "password_reset", expiresAt := 100, used := false,
        createdAt := 0 }
      (by decide) (by decide) (by decide) (by decide) (by decide)
      (by decide) (by decide)).2.1⟩

/- ### C9: no token for an unverified account -/

/-- C9: when the account matching the credentials has `email_verified =
false`, loginUser never answers with a token-carrying login result — even
for the correct password it answers the `needsVerification` shape
instead. -/
theorem loginUser_unverified_no_token
    (cmp : String → String → Bool) (email password : String)
    (users : List User) (u : User)
    (hu : getUserByEmail (normalizeEmail email) users = some u)
    (hv : u.email_verified = false) :
    (∀ (t : Jwt) (usr : User) (m : String),
        loginUser cmp email password users
          ≠ Except.ok (LoginResult.loggedIn t usr m))
    ∧ (email ≠ "" → password ≠ "" → cmp password u.password = true →
        loginUser cmp email password users
          = Except.ok (LoginResult.needsVerification u.email
              "Please verify your email before logging in. Check your email for verification code.")) := by
  constructor
  · intro t usr m
    unfold loginUser
    by_cases h1 : email = "" ∨ password = ""
    · simp [h1]
    · rw [if_neg h1, hu]
      cases h2 : cmp password u.password <;> simp [h2, hv]
  · intro he hp hcmp
    unfold loginUser
    rw [if_neg (by simp [he, hp]), hu]
    simp [hcmp, hv]

/-- Witness for C9: dave is unverified and presents the correct password
(the comparison answers true), yet gets `needsVerification`, not a
token. -/
theorem loginUser_unverified_no_token_witness :
    loginUser (fun _ _ => true) "dave@example.com" "correct-password"
        usersDave
      = Except.ok (LoginResult.needsVerification "dave@example.com"
          "Please verify your email before logging in. Check your email for verification code.") :=
  (loginUser_unverified_no_token (fun _ _ => true) "dave@example.com"
      "correct-password" usersDave
      { id := 2, username := "dave", email := "dave@example.com",
        password := "stored-bcrypt-hash", role := "user",
        email_verified := false }
      (by decide) (by decide)).2 (by decide) (by decide) (by decide)

/- ### C10: the verification-issuance endpoint reveals account state -/

/-- C10: otpController.sendVerificationOTP answers 404 `User not found` for
an unknown email and 400 `Email is already verified` for a verified
account, in both cases returning the OTP store unchanged — no code is
generated, stored or dispatched.  By contrast the password-reset request
path (forgotPassword) answers success for an unknown account. -/
theorem sendVerificationOTP_reveals_account_state
    (rand : Nat → Nat) (email : String) (len exp now : Nat) (d : Bool)
    (users : List User) (st : OtpStore)
    (he : email ≠ "") :
    (getUserByEmail email users = none →
        sendVerificationOTP rand email len exp now d users st
          = ({ status := 404, success := false,
               error := some "User not found", message := none,
               data := none }, st))
    ∧ (∀ u, getUserByEmail email users = some u → u.email_verified = true →
        sendVerificationOTP rand email len exp now d users st
          = ({ status := 400, success := false,
               error := some "Email is already verified", message := none,
               data := none }, st))
    ∧ (emailRegexTest email = true →
        getUserByEmail (normalizeEmail email) users = none →
        (forgotPassword rand email len exp now d users st).1
          = Except.ok
              { success := true,
                message := "If an account with this email exists, a password reset code has been sent." }) := by
  refine ⟨?_, ?_, ?_⟩
  · intro habsent
    simp [sendVerificationOTP, he, habsent]
  · intro u huser hver
    simp [sendVerificationOTP, he, huser, hver]
  · intro hre habsent
    simp [forgotPassword, he, hre, habsent]

/-- Witness for C10: carol has no account, so the endpoint answers 404 with
the store unchanged (while the reset path would answer success). -/
theorem sendVerificationOTP_reveals_account_state_witness :
    sendVerificationOTP (fun _ => 1) "carol@example.com" 6 10 0 true
        usersOne emptyStore
      = ({ status := 404, success := false, error := some "User not found",
           message := none, data := none }, emptyStore) :=
  (sendVerificationOTP_reveals_account_state (fun _ => 1)
      "carol@example.com" 6 10 0 true usersOne emptyStore (by decide)).1
    (by decide)

end BackendOtp
